import Mathlib

/-!
Shallow embedding of the vibers real-time navigation and manipulation
engine: avatar locomotion (src/systems/AvatarController.ts), the orbit
camera's pitch handling (src/systems/CameraController.ts), the gizmo
drag controller (src/components/Gizmo.tsx), prim scaling
(src/components/World.tsx) and the texture LOD hysteresis
(src/components/Region.tsx).

Numbers are modelled as exact rationals (ℚ) where the source only uses
rational arithmetic, and as reals (ℝ) where the source uses pi and
inverse trigonometry.  The square root, cosine and sine used by the
avatar controller are abstracted into a `MathOracle`: invariant theorems
are proved for every oracle (so in particular for the exact real
functions), and concrete runs instantiate the oracle with the exact
values those runs reach.  The downward raycast against the cached
terrain planes is abstracted into a probe function from the ray origin
to the list of intersection heights.
-/

namespace Vibers

/-- Oracle for the real-valued math functions (square root, cosine, sine)
used by the avatar controller's `normalize` and `applyAxisAngle`. -/
structure MathOracle where
  sqrtQ : ℚ → ℚ
  cosQ : ℚ → ℚ
  sinQ : ℚ → ℚ

/-- State kept by `useAvatarController` across frames: `stateRef`
(position, rotation, isFlying, isWalking), `velocityRef` and
`fKeyProcessedRef` (AvatarController.ts lines 25-42).  The source's
`rotation` field, the avatar's yaw angle about the vertical axis, is
named `yaw` here. -/
structure AvatarState where
  posX : ℚ
  posY : ℚ
  posZ : ℚ
  yaw : ℚ
  isFlying : Bool
  isWalking : Bool
  velX : ℚ
  velY : ℚ
  velZ : ℚ
  fKeyProcessed : Bool
deriving DecidableEq

/-- Per-frame input snapshot for the avatar controller: the camera mode
broadcast on `window.__cameraMode`, the pressed-key set projected to the
keys the controller reads, and the frame's delta time. -/
structure AvatarInput where
  cameraModeFree : Bool
  keyF : Bool
  keyForward : Bool
  keyBackward : Bool
  keyLeft : Bool
  keyRight : Bool
  keyUp : Bool
  keyDown : Bool
  delta : ℚ
deriving DecidableEq

/-- AvatarController.ts line 6: AVATAR_HEIGHT. -/
def AVATAR_HEIGHT : ℚ := 2

/-- AvatarController.ts line 18: GROUND_HEIGHT. -/
def GROUND_HEIGHT : ℚ := 0

/-- AvatarController.ts line 14: WALK_SPEED (m/s). -/
def WALK_SPEED : ℚ := 8

/-- AvatarController.ts line 15: FLY_SPEED (m/s). -/
def FLY_SPEED : ℚ := 40

/-- AvatarController.ts line 16: ROTATION_SPEED (radians/s). -/
def ROTATION_SPEED : ℚ := 2

/-- AvatarController.ts line 17: GRAVITY (m/s^2). -/
def GRAVITY : ℚ := -98/10

/-- A ground probe maps a ray origin (x, y, z), ray direction straight
down, to the list of y coordinates of the intersection points with the
cached terrain planes (AvatarController.ts line 145). -/
def GroundProbe : Type := ℚ → ℚ → ℚ → List ℚ

/-- AvatarController.ts lines 151-156: scan the intersection list for the
highest intersection point, starting from the first entry. -/
def highestHit (first : ℚ) (hits : List ℚ) : ℚ :=
  hits.foldl (fun acc p => if p > acc then p else acc) first

/-- AvatarController.ts lines 126-159: cast a ray from 20 m above the
given position straight down and turn the intersections into the minimum
avatar-center height: highest hit plus half the avatar height, or the
fallback `GROUND_HEIGHT + AVATAR_HEIGHT / 2` when nothing is hit. -/
def probeMinHeight (probe : GroundProbe) (x y z : ℚ) : ℚ :=
  match probe x (y + 20) z with
  | [] => GROUND_HEIGHT + AVATAR_HEIGHT / 2
  | p :: ps => highestHit p (p :: ps) + AVATAR_HEIGHT / 2

/-- AvatarController.ts lines 185-192: clamp the integrated position to
the minimum height and zero any downward vertical velocity on contact. -/
def clampToGround (minHeight : ℚ) (s : AvatarState) : AvatarState :=
  if s.posY < minHeight then
    { s with posY := minHeight, velY := if s.velY < 0 then 0 else s.velY }
  else s

/-- AvatarController.ts lines 77-183: one frame of the avatar update
before the final ground clamp, given the minimum height computed by the
probe at the frame's start position: fly-toggle edge detection, movement
direction from keys, normalization and speed scaling, rotation by the
current yaw, yaw update, vertical velocity (fly or gravity) and position
integration. -/
def avatarStepRaw (M : MathOracle) (minHeight : ℚ) (s : AvatarState)
    (i : AvatarInput) : AvatarState :=
  let fPressed := i.keyF
  let isFlying := if fPressed && !s.fKeyProcessed then !s.isFlying else s.isFlying
  let fKeyProcessed :=
    if fPressed && !s.fKeyProcessed then true
    else if !fPressed then false
    else s.fKeyProcessed
  let moveForward := i.keyForward
  let moveBackward := i.keyBackward
  let moveLeft := i.keyLeft
  let moveRight := i.keyRight
  let dirX : ℚ := (if moveLeft then -1 else 0) + (if moveRight then 1 else 0)
  let dirZ : ℚ := (if moveForward then -1 else 0) + (if moveBackward then 1 else 0)
  let len := M.sqrtQ (dirX * dirX + dirZ * dirZ)
  let speed := if isFlying then FLY_SPEED else WALK_SPEED
  let c := M.cosQ s.yaw
  let sn := M.sinQ s.yaw
  let vel :=
    if 0 < len then
      let nx := dirX / len
      let nz := dirZ / len
      let mx := nx * (speed * i.delta)
      let mz := nz * (speed * i.delta)
      (mx * c + mz * sn, -mx * sn + mz * c, true)
    else ((0 : ℚ), (0 : ℚ), false)
  let velX := vel.1
  let velZ := vel.2.1
  let isWalking := vel.2.2
  let yaw :=
    if moveLeft || moveRight then
      s.yaw + (if moveLeft then (1 : ℚ) else -1) * ROTATION_SPEED * i.delta
    else s.yaw
  let velY :=
    if isFlying then
      if i.keyUp then FLY_SPEED
      else if i.keyDown then
        if minHeight + 1/10 < s.posY then -FLY_SPEED else 0
      else 0
    else s.velY + GRAVITY * i.delta
  { posX := s.posX + velX
    posY := s.posY + velY * i.delta
    posZ := s.posZ + velZ
    yaw := yaw
    isFlying := isFlying
    isWalking := isWalking
    velX := velX
    velY := velY
    velZ := velZ
    fKeyProcessed := fKeyProcessed }

/-- AvatarController.ts lines 67-206: one full `useFrame` tick of the
avatar controller.  In free camera mode the handler returns immediately
(lines 72-75); otherwise the probe is evaluated at the frame's start
position (lines 126-159) and its minimum height is used both by the
fly-down check and by the final ground clamp. -/
def avatarStep (M : MathOracle) (probe : GroundProbe) (s : AvatarState)
    (i : AvatarInput) : AvatarState :=
  if i.cameraModeFree then s
  else
    let minHeight := probeMinHeight probe s.posX s.posY s.posZ
    clampToGround minHeight (avatarStepRaw M minHeight s i)

/-- Iterated avatar frames. -/
def avatarRun (M : MathOracle) (probe : GroundProbe) (s : AvatarState)
    (frames : List AvatarInput) : AvatarState :=
  frames.foldl (avatarStep M probe) s

/-- Spec-variant of the frame update for the refinement claim C5,
following the spec's step 6 wording ("Query Ground Probe at the new
horizontal position with half-height 1.0 m") instead of the source: it is
`avatarStep` except that the minimum height used by the final clamp comes
from a probe cast at the position reached after this frame's movement. -/
def avatarStepSpecProbe (M : MathOracle) (probe : GroundProbe)
    (s : AvatarState) (i : AvatarInput) : AvatarState :=
  if i.cameraModeFree then s
  else
    let raw := avatarStepRaw M (probeMinHeight probe s.posX s.posY s.posZ) s i
    clampToGround (probeMinHeight probe raw.posX raw.posY raw.posZ) raw

/-- Math oracle for the concrete runs below.  It agrees with the exact
real square root, cosine and sine at every argument those runs reach:
the runs only take square roots of 0 and 1 and only evaluate cosine and
sine at yaw 0. -/
def stdOracle : MathOracle where
  sqrtQ q := if q = 0 then 0 else if q = 1 then 1 else 0
  cosQ q := if q = 0 then 1 else 0
  sinQ _ := 0

/-- Ground probe for a flat terrain plane at y = 0: the downward ray from
(x, y, z) hits the plane exactly when it starts above it. -/
def flatProbe : GroundProbe :=
  fun _ y _ => if 0 < y then [0] else []

/-- Ground probe whose terrain height depends on the horizontal position:
a plane at y = 0 over the line z = 0 and a plane at y = 10 elsewhere. -/
def ridgeProbe : GroundProbe :=
  fun _ y z =>
    if z = 0 then (if 0 < y then [0] else [])
    else (if 10 < y then [10] else [])

/-- A frame holding only the forward intent at the nominal 60 fps delta. -/
def fwdFrame : AvatarInput :=
  { cameraModeFree := false, keyF := false, keyForward := true
    keyBackward := false, keyLeft := false, keyRight := false
    keyUp := false, keyDown := false, delta := 1/60 }

/-- A frame holding only the fly-toggle key at the nominal delta. -/
def fFrame : AvatarInput :=
  { cameraModeFree := false, keyF := true, keyForward := false
    keyBackward := false, keyLeft := false, keyRight := false
    keyUp := false, keyDown := false, delta := 1/60 }

/-- A frame with no keys held at the nominal delta. -/
def idleFrame : AvatarInput :=
  { cameraModeFree := false, keyF := false, keyForward := false
    keyBackward := false, keyLeft := false, keyRight := false
    keyUp := false, keyDown := false, delta := 1/60 }

/-- A frame spent in free camera mode (with no keys held). -/
def freeFrame : AvatarInput :=
  { cameraModeFree := true, keyF := false, keyForward := false
    keyBackward := false, keyLeft := false, keyRight := false
    keyUp := false, keyDown := false, delta := 1/60 }

/-- The controller's initial state: `initialPosition` default (0, 2, 0),
rotation 0, not flying, not walking, zero velocity, latch clear
(AvatarController.ts lines 20-42). -/
def avatarStart : AvatarState :=
  { posX := 0, posY := 2, posZ := 0, yaw := 0, isFlying := false
    isWalking := false, velX := 0, velY := 0, velZ := 0
    fKeyProcessed := false }

/-- Walking forward over flat ground at y = 0 for n nominal frames from
the initial state. -/
def walkRun (n : Nat) : AvatarState :=
  avatarRun stdOracle flatProbe avatarStart (List.replicate n fwdFrame)

/-! ### Texture LOD hysteresis (src/components/Region.tsx) -/

/-- Region.tsx line 25: HIGH_RES_DISTANCE (m). -/
def HIGH_RES_DISTANCE : ℚ := 120

/-- Region.tsx line 26: HIGH_RES_DISTANCE_HYSTERESIS (m). -/
def HIGH_RES_DISTANCE_HYSTERESIS : ℚ := 140

/-- Region.tsx line 27: MEDIUM_RES_DISTANCE (m). -/
def MEDIUM_RES_DISTANCE : ℚ := 250

/-- Region.tsx line 28: MEDIUM_RES_DISTANCE_HYSTERESIS (m). -/
def MEDIUM_RES_DISTANCE_HYSTERESIS : ℚ := 280

/-- Region.tsx lines 31-53: texture LOD selection with hysteresis.
LOD 0 is the high tier, 1 the medium tier, 2 the low tier; the ref
holding the current LOD is initialized to -1, which falls into the final
(low) branch. -/
def getTextureLOD (distance : ℚ) (currentLOD : ℤ) : ℤ :=
  if currentLOD = 0 then
    if HIGH_RES_DISTANCE_HYSTERESIS < distance then 1 else 0
  else if currentLOD = 1 then
    if distance < HIGH_RES_DISTANCE then 0
    else if MEDIUM_RES_DISTANCE_HYSTERESIS < distance then 2
    else 1
  else
    if distance < MEDIUM_RES_DISTANCE then 1 else 2

/-- Feeding a sequence of evaluated distances through the LOD selection,
carrying the current tier from one evaluation to the next. -/
def lodRun (start : ℤ) (ds : List ℚ) : ℤ :=
  ds.foldl (fun lod d => getTextureLOD d lod) start

/-! ### Gizmo drag controller (src/components/Gizmo.tsx) and prim scale
handler (src/components/World.tsx) -/

/-- Gizmo axes. -/
inductive Axis
  | x
  | y
  | z
deriving DecidableEq

/-- Gizmo modes (Gizmo.tsx line 5). -/
inductive GizmoMode
  | translate
  | rotate
  | scale
deriving DecidableEq

/-- Gizmo.tsx lines 54-67: per-axis raw drag delta; sensitivity is the
camera-to-target distance times 0.002, the horizontal screen delta maps
to the x axis and the inverted vertical screen delta maps to the y and z
axes. -/
def gizmoAxisDelta (axis : Axis) (deltaX deltaY distance : ℚ) : ℚ :=
  let sensitivity := distance * 0.002
  match axis with
  | Axis.x => deltaX * sensitivity
  | Axis.y => -deltaY * sensitivity
  | Axis.z => -deltaY * sensitivity

/-- Gizmo.tsx lines 69-77: the delta emitted to the consumer callback,
scaled per mode (rotation sensitivity 0.5, scale sensitivity 0.1). -/
def gizmoEmit (mode : GizmoMode) (axis : Axis) (deltaX deltaY distance : ℚ) : ℚ :=
  match mode with
  | GizmoMode.translate => gizmoAxisDelta axis deltaX deltaY distance
  | GizmoMode.rotate => gizmoAxisDelta axis deltaX deltaY distance * 0.5
  | GizmoMode.scale => gizmoAxisDelta axis deltaX deltaY distance * 0.1

/-- The numeric transform fields of a prim record
(src/server/types/Prim.ts) that the World.tsx gizmo handlers update. -/
structure PrimTransform where
  position_x : ℚ
  position_y : ℚ
  position_z : ℚ
  rotation_x : ℚ
  rotation_y : ℚ
  rotation_z : ℚ
  scale_x : ℚ
  scale_y : ℚ
  scale_z : ℚ
deriving DecidableEq

/-- World.tsx lines 573-581 (`handlePrimScale`): the scale update applied
to the prim's local state for the dragged axis, clamped below by 0.1. -/
def handlePrimScale (prim : PrimTransform) (axis : Axis) (delta : ℚ) : PrimTransform :=
  match axis with
  | Axis.x => { prim with scale_x := max 0.1 (prim.scale_x + delta) }
  | Axis.y => { prim with scale_y := max 0.1 (prim.scale_y + delta) }
  | Axis.z => { prim with scale_z := max 0.1 (prim.scale_z + delta) }

/-! ### Orbit camera pitch (src/systems/CameraController.ts) -/

/-- CameraController.ts line 41: MIN_PITCH. -/
noncomputable def MIN_PITCH : ℝ := -(Real.pi / 3)

/-- CameraController.ts line 42: MAX_PITCH. -/
noncomputable def MAX_PITCH : ℝ := Real.pi / 2.5

/-- CameraController.ts line 45: PITCH_SENSITIVITY. -/
noncomputable def PITCH_SENSITIVITY : ℝ := 0.005

/-- CameraController.ts lines 258-262: the orbit pitch update from a drag
delta, clamped to [MIN_PITCH, MAX_PITCH]. -/
noncomputable def orbitPitchDrag (pitch deltaY : ℝ) : ℝ :=
  max MIN_PITCH (min MAX_PITCH (pitch - deltaY * PITCH_SENSITIVITY))

/-- CameraController.ts lines 524-531: the ground-clamp pitch back-solve.
When the target camera position was clamped up to the minimum camera
height, the code recomputes a maximum pitch as the inverse sine of the
clamped vertical offset over the distance and raises the pitch to it if
the current pitch is below. -/
noncomputable def orbitPitchGroundSolve (targetY avatarY distance pitch : ℝ) : ℝ :=
  let adjustedVerticalOffset := targetY - avatarY - 1.5
  let maxPitch := Real.arcsin (max (-1) (min 1 (adjustedVerticalOffset / distance)))
  if pitch < maxPitch then maxPitch else pitch

/-- A pitch adjustment: either a rotate-drag mouse move or the internal
ground-clamp back-solve of a frame in which the camera was clamped. -/
inductive PitchEvent
  | drag (deltaY : ℝ)
  | groundSolve (targetY avatarY distance : ℝ)

/-- Applying one pitch adjustment. -/
noncomputable def applyPitchEvent (pitch : ℝ) : PitchEvent → ℝ
  | PitchEvent.drag dY => orbitPitchDrag pitch dY
  | PitchEvent.groundSolve tY aY d => orbitPitchGroundSolve tY aY d pitch

/-- Folding a sequence of pitch adjustments. -/
noncomputable def runPitch (pitch : ℝ) (es : List PitchEvent) : ℝ :=
  es.foldl applyPitchEvent pitch

/-! ### Exclusive-input flags, gizmo drag session and the camera rig's
gesture recognizer (Gizmo.tsx, CameraController.ts) -/

/-- The two global flags the gizmo sets while a drag session is live:
`window.__gizmoClicked` and `window.__primDragging`. -/
structure InputFlags where
  gizmoClicked : Bool
  primDragging : Bool
deriving DecidableEq

/-- The camera rig's rotate/pan recognizer skips events while either flag
is set (CameraController.ts lines 115 and 197). -/
def exclusiveInput (f : InputFlags) : Bool := f.gizmoClicked || f.primDragging

/-- Gizmo drag-session state: the dragged axis (none when no session),
the drag-start pointer position, the global flags and the pending
deferred flag clear (the `setTimeout` of Gizmo.tsx lines 87-90),
recorded as the scheduled wall-clock time in ms. -/
structure GizmoCtl where
  draggingAxis : Option Axis
  dragStartX : ℚ
  dragStartY : ℚ
  flags : InputFlags
  pendingClearAt : Option ℚ
deriving DecidableEq

/-- Gizmo.tsx lines 103-115 and 47-51: pointer-down on a handle starts
the session, records the pointer position and raises `__gizmoClicked`;
the drag effect that becomes active for the new session raises
`__primDragging`. -/
def gizmoPointerDown (axis : Axis) (px py : ℚ) (g : GizmoCtl) : GizmoCtl :=
  { g with draggingAxis := some axis, dragStartX := px, dragStartY := py,
           flags := { gizmoClicked := true, primDragging := true } }

/-- Gizmo.tsx lines 53-80: a mouse move during an active session computes
the per-axis delta from the pointer movement since drag start, emits the
mode-scaled delta to the consumer and re-bases the drag start; without an
active session nothing happens. -/
def gizmoDragMove (mode : GizmoMode) (distance : ℚ) (px py : ℚ) (g : GizmoCtl) :
    GizmoCtl × Option (Axis × ℚ) :=
  match g.draggingAxis with
  | none => (g, none)
  | some axis =>
      let deltaX := px - g.dragStartX
      let deltaY := py - g.dragStartY
      ({ g with dragStartX := px, dragStartY := py },
       some (axis, gizmoEmit mode axis deltaX deltaY distance))

/-- Gizmo.tsx lines 82-100: mouse-up ends the session.  The drag effect's
cleanup removes `__primDragging` as the session unmounts, while
`__gizmoClicked` is only removed by the 100 ms deferred clear scheduled
here. -/
def gizmoMouseUp (now : ℚ) (g : GizmoCtl) : GizmoCtl :=
  { g with draggingAxis := none,
           flags := { gizmoClicked := g.flags.gizmoClicked, primDragging := false },
           pendingClearAt := some (now + 100) }

/-- The deferred clear firing at wall-clock time `now`: both flags are
removed once the scheduled moment has been reached. -/
def gizmoTimerFire (now : ℚ) (g : GizmoCtl) : GizmoCtl :=
  match g.pendingClearAt with
  | none => g
  | some t =>
      if t ≤ now then { g with flags := { gizmoClicked := false, primDragging := false },
                               pendingClearAt := none }
      else g

/-- Camera mode (CameraController.ts line 37). -/
inductive CamMode
  | avatar
  | free
deriving DecidableEq

/-- A 3-vector of reals. -/
structure Vec3R where
  x : ℝ
  y : ℝ
  z : ℝ

/-- The camera controller's gesture state: the mode ref, the drag/pan/
right-button flags, the last mouse position, and the orbit and free-fly
numeric state the recognizer mutates (CameraController.ts lines 56-101). -/
structure CamState where
  mode : CamMode
  isDragging : Bool
  isPanning : Bool
  panStartedWithMiddleButton : Bool
  isRightMouseDown : Bool
  lastMouseX : ℝ
  lastMouseY : ℝ
  distance : ℝ
  azimuth : ℝ
  pitch : ℝ
  panOffsetX : ℝ
  panOffsetY : ℝ
  panOffsetZ : ℝ
  freeYaw : ℝ
  freePitch : ℝ
  freeFocus : Option Vec3R
  freePos : Option Vec3R
  freeVelX : ℝ
  freeVelY : ℝ
  freeVelZ : ℝ

/-- A mouse-down event as the camera handler reads it, including what the
handler's environment reads resolve to: whether the target is a UI
element, whether a canvas encloses it, the scene raycast hit of an
alt-click, and the camera's position, forward direction and Euler
angles at the time of the event. -/
structure MouseDownEvent where
  button : ℕ
  altKey : Bool
  shiftKey : Bool
  clientX : ℝ
  clientY : ℝ
  onUIElement : Bool
  hasCanvas : Bool
  rayHit : Option Vec3R
  camPos : Vec3R
  camDir : Vec3R
  camEulerX : ℝ
  camEulerY : ℝ

/-- A mouse-move event as the camera handler reads it, with the camera's
current right and up basis vectors (matrixWorld columns 0 and 1,
normalized) used by the pan branch. -/
structure MouseMoveEvent where
  clientX : ℝ
  clientY : ℝ
  shiftKey : Bool
  camRight : Vec3R
  camUp : Vec3R

/-- CameraController.ts line 44: ROTATION_SENSITIVITY. -/
noncomputable def ROTATION_SENSITIVITY : ℝ := 0.005

/-- CameraController.ts line 46: PAN_SENSITIVITY. -/
noncomputable def PAN_SENSITIVITY : ℝ := 0.02

/-- CameraController.ts line 94: MOUSE_SENSITIVITY (free-look). -/
noncomputable def MOUSE_SENSITIVITY : ℝ := 0.002

/-- CameraController.ts lines 106-193 (`handleMouseDown`): the camera
rig's mouse-down recognizer.  It ignores UI-element targets, skips
entirely while the gizmo's exclusive-input flags are set, tracks the
right button for free-look, enters free camera mode on alt+click over the
canvas (focus from the raycast hit or a point 10 m along the camera
forward), and otherwise arms panning (shift or middle button) or orbit
rotation (plain left button). -/
noncomputable def camHandleMouseDown (flags : InputFlags) (e : MouseDownEvent)
    (s : CamState) : CamState :=
  if e.onUIElement then s
  else if exclusiveInput flags then s
  else if e.button = 2 ∧ s.mode = CamMode.free then
    { s with isRightMouseDown := true, lastMouseX := e.clientX, lastMouseY := e.clientY }
  else if e.button = 0 then
    if e.altKey ∧ e.hasCanvas then
      { s with mode := CamMode.free,
               freeFocus := some (match e.rayHit with
                 | some p => p
                 | none => { x := e.camPos.x + e.camDir.x * 10
                             y := e.camPos.y + e.camDir.y * 10
                             z := e.camPos.z + e.camDir.z * 10 }),
               panOffsetX := 0, panOffsetY := 0, panOffsetZ := 0,
               freePos := some e.camPos,
               freeVelX := 0, freeVelY := 0, freeVelZ := 0,
               freePitch := e.camEulerX, freeYaw := e.camEulerY }
    else if e.shiftKey then
      { s with isPanning := true, panStartedWithMiddleButton := false,
               lastMouseX := e.clientX, lastMouseY := e.clientY }
    else
      { s with isDragging := true, lastMouseX := e.clientX, lastMouseY := e.clientY }
  else if e.button = 1 then
    { s with isPanning := true, panStartedWithMiddleButton := true,
             lastMouseX := e.clientX, lastMouseY := e.clientY }
  else s

/-- CameraController.ts lines 195-267 (`handleMouseMove`): the camera
rig's mouse-move recognizer.  It skips entirely while the gizmo's
exclusive-input flags are set; in free mode with the right button held it
applies mouse-look with the gimbal pitch clamp; otherwise it switches
between panning and rotation on shift transitions, accumulates the pan
offset along the camera's right/up vectors, or updates azimuth and the
clamped orbit pitch. -/
noncomputable def camHandleMouseMove (flags : InputFlags) (e : MouseMoveEvent)
    (s : CamState) : CamState :=
  if exclusiveInput flags then s
  else if s.mode = CamMode.free ∧ s.isRightMouseDown then
    let deltaX := e.clientX - s.lastMouseX
    let deltaY := e.clientY - s.lastMouseY
    { s with freeYaw := s.freeYaw - deltaX * MOUSE_SENSITIVITY,
             freePitch := max (-(Real.pi / 2) + 0.1)
               (min (Real.pi / 2 - 0.1) (s.freePitch - deltaY * MOUSE_SENSITIVITY)),
             lastMouseX := e.clientX, lastMouseY := e.clientY }
  else
    let s1 := if s.isDragging ∧ e.shiftKey then
        { s with isDragging := false, isPanning := true,
                 panStartedWithMiddleButton := false }
      else s
    let s2 := if s1.isPanning ∧ ¬e.shiftKey ∧ ¬s1.panStartedWithMiddleButton then
        { s1 with isPanning := false, isDragging := true }
      else s1
    if ¬s2.isDragging ∧ ¬s2.isPanning then s2
    else
      let deltaX := e.clientX - s2.lastMouseX
      let deltaY := e.clientY - s2.lastMouseY
      let s3 :=
        if s2.isPanning ∨ (s2.isDragging ∧ e.shiftKey) then
          { s2 with
            panOffsetX := s2.panOffsetX + e.camRight.x * (-deltaX * PAN_SENSITIVITY)
              + e.camUp.x * (deltaY * PAN_SENSITIVITY),
            panOffsetY := s2.panOffsetY + e.camRight.y * (-deltaX * PAN_SENSITIVITY)
              + e.camUp.y * (deltaY * PAN_SENSITIVITY),
            panOffsetZ := s2.panOffsetZ + e.camRight.z * (-deltaX * PAN_SENSITIVITY)
              + e.camUp.z * (deltaY * PAN_SENSITIVITY) }
        else if s2.isDragging then
          { s2 with azimuth := s2.azimuth - deltaX * ROTATION_SENSITIVITY,
                    pitch := max MIN_PITCH (min MAX_PITCH (s2.pitch - deltaY * PITCH_SENSITIVITY)) }
        else s2
      { s3 with lastMouseX := e.clientX, lastMouseY := e.clientY }

/-- A prim with unit scale and zero position/rotation, for witnesses. -/
def primUnit : PrimTransform :=
  { position_x := 0, position_y := 0, position_z := 0
    rotation_x := 0, rotation_y := 0, rotation_z := 0
    scale_x := 1, scale_y := 1, scale_z := 1 }

/-- Both exclusive-input flags raised, as during a live gizmo drag. -/
def flagsBoth : InputFlags := { gizmoClicked := true, primDragging := true }

/-- A live gizmo drag session on the x axis, for witnesses. -/
def gizmoSession0 : GizmoCtl :=
  { draggingAxis := some Axis.x, dragStartX := 0, dragStartY := 0
    flags := flagsBoth, pendingClearAt := none }

/-- A camera gesture state at rest in avatar mode, for witnesses. -/
noncomputable def camState0 : CamState :=
  { mode := CamMode.avatar, isDragging := false, isPanning := false
    panStartedWithMiddleButton := false, isRightMouseDown := false
    lastMouseX := 0, lastMouseY := 0, distance := 5, azimuth := 0
    pitch := Real.pi / 6, panOffsetX := 0, panOffsetY := 0, panOffsetZ := 0
    freeYaw := 0, freePitch := 0, freeFocus := none, freePos := none
    freeVelX := 0, freeVelY := 0, freeVelZ := 0 }

/-- A plain left-button mouse-down over the canvas, for witnesses. -/
noncomputable def mouseDownEvent0 : MouseDownEvent :=
  { button := 0, altKey := false, shiftKey := false, clientX := 100, clientY := 100
    onUIElement := false, hasCanvas := true, rayHit := none
    camPos := { x := 0, y := 5, z := 10 }, camDir := { x := 0, y := 0, z := -1 }
    camEulerX := 0, camEulerY := 0 }

/-- A mouse-move event, for witnesses. -/
noncomputable def mouseMoveEvent0 : MouseMoveEvent :=
  { clientX := 150, clientY := 120, shiftKey := false
    camRight := { x := 1, y := 0, z := 0 }, camUp := { x := 0, y := 1, z := 0 } }

/-! ### Helper lemmas about the avatar frame update -/

theorem clampToGround_posY (m : ℚ) (s : AvatarState) :
    (clampToGround m s).posY = if s.posY < m then m else s.posY := by
  unfold clampToGround; split <;> rfl

theorem clampToGround_velY (m : ℚ) (s : AvatarState) :
    (clampToGround m s).velY =
      if s.posY < m then (if s.velY < 0 then 0 else s.velY) else s.velY := by
  unfold clampToGround; split <;> rfl

theorem clampToGround_isFlying (m : ℚ) (s : AvatarState) :
    (clampToGround m s).isFlying = s.isFlying := by
  unfold clampToGround; split <;> rfl

theorem clampToGround_fKeyProcessed (m : ℚ) (s : AvatarState) :
    (clampToGround m s).fKeyProcessed = s.fKeyProcessed := by
  unfold clampToGround; split <;> rfl

theorem avatarStep_not_free (M : MathOracle) (probe : GroundProbe)
    (s : AvatarState) (i : AvatarInput) (hfree : i.cameraModeFree = false) :
    avatarStep M probe s i =
      clampToGround (probeMinHeight probe s.posX s.posY s.posZ)
        (avatarStepRaw M (probeMinHeight probe s.posX s.posY s.posZ) s i) := by
  unfold avatarStep
  rw [if_neg (by simp [hfree])]

theorem avatarStepRaw_isFlying (M : MathOracle) (m : ℚ) (s : AvatarState)
    (i : AvatarInput) :
    (avatarStepRaw M m s i).isFlying =
      if i.keyF && !s.fKeyProcessed then !s.isFlying else s.isFlying := rfl

theorem avatarStepRaw_fKeyProcessed (M : MathOracle) (m : ℚ) (s : AvatarState)
    (i : AvatarInput) :
    (avatarStepRaw M m s i).fKeyProcessed =
      if i.keyF && !s.fKeyProcessed then true
      else if !i.keyF then false
      else s.fKeyProcessed := rfl

theorem avatarStepRaw_posY (M : MathOracle) (m : ℚ) (s : AvatarState)
    (i : AvatarInput) :
    (avatarStepRaw M m s i).posY = s.posY + (avatarStepRaw M m s i).velY * i.delta := rfl

theorem avatarStepRaw_velY_walking (M : MathOracle) (m : ℚ) (s : AvatarState)
    (i : AvatarInput) (hf : i.keyF = false) (hF : s.isFlying = false) :
    (avatarStepRaw M m s i).velY = s.velY + GRAVITY * i.delta := by
  simp [avatarStepRaw, hf, hF]

theorem avatarStep_posY_ge (M : MathOracle) (probe : GroundProbe)
    (s : AvatarState) (i : AvatarInput) (hfree : i.cameraModeFree = false) :
    probeMinHeight probe s.posX s.posY s.posZ ≤ (avatarStep M probe s i).posY := by
  rw [avatarStep_not_free M probe s i hfree, clampToGround_posY]
  split
  · exact le_refl _
  · linarith [not_lt.mp (by assumption)]

/-- Toggle on the rising edge: with the latch clear and the toggle key
held, one frame flips `isFlying` and sets the latch. -/
theorem avatarStep_toggle (M : MathOracle) (probe : GroundProbe)
    (s : AvatarState) (i : AvatarInput) (hfree : i.cameraModeFree = false)
    (hf : i.keyF = true) (hl : s.fKeyProcessed = false) :
    (avatarStep M probe s i).isFlying = !s.isFlying ∧
    (avatarStep M probe s i).fKeyProcessed = true := by
  rw [avatarStep_not_free M probe s i hfree]
  rw [clampToGround_isFlying, clampToGround_fKeyProcessed,
    avatarStepRaw_isFlying, avatarStepRaw_fKeyProcessed]
  simp [hf, hl]

/-- With the latch set and the toggle key still held, a frame keeps
`isFlying` and the latch. -/
theorem avatarStep_held (M : MathOracle) (probe : GroundProbe)
    (s : AvatarState) (i : AvatarInput) (hfree : i.cameraModeFree = false)
    (hf : i.keyF = true) (hl : s.fKeyProcessed = true) :
    (avatarStep M probe s i).isFlying = s.isFlying ∧
    (avatarStep M probe s i).fKeyProcessed = true := by
  rw [avatarStep_not_free M probe s i hfree]
  rw [clampToGround_isFlying, clampToGround_fKeyProcessed,
    avatarStepRaw_isFlying, avatarStepRaw_fKeyProcessed]
  simp [hf, hl]

/-- With the toggle key released, a frame keeps `isFlying` and clears the
latch. -/
theorem avatarStep_release (M : MathOracle) (probe : GroundProbe)
    (s : AvatarState) (i : AvatarInput) (hfree : i.cameraModeFree = false)
    (hf : i.keyF = false) :
    (avatarStep M probe s i).isFlying = s.isFlying ∧
    (avatarStep M probe s i).fKeyProcessed = false := by
  rw [avatarStep_not_free M probe s i hfree]
  rw [clampToGround_isFlying, clampToGround_fKeyProcessed,
    avatarStepRaw_isFlying, avatarStepRaw_fKeyProcessed]
  simp [hf]

/-- During a held run with the latch already set, `isFlying` never
changes and the latch stays set. -/
theorem avatarRun_held (M : MathOracle) (probe : GroundProbe)
    (L : List AvatarInput)
    (hL : ∀ i ∈ L, i.keyF = true ∧ i.cameraModeFree = false) :
    ∀ s : AvatarState, s.fKeyProcessed = true →
      (avatarRun M probe s L).isFlying = s.isFlying ∧
      (avatarRun M probe s L).fKeyProcessed = true := by
  induction L with
  | nil => intro s hs; exact ⟨rfl, hs⟩
  | cons a L ih =>
      intro s hs
      have ha := hL a (List.mem_cons_self a L)
      have hstep := avatarStep_held M probe s a ha.2 ha.1 hs
      have hrest := ih (fun i hi => hL i (List.mem_cons_of_mem a hi))
        (avatarStep M probe s a) hstep.2
      unfold avatarRun at hrest ⊢
      rw [List.foldl_cons]
      exact ⟨hrest.1.trans hstep.1, hrest.2⟩

theorem avatarRun_held_from_clear (M : MathOracle) (probe : GroundProbe)
    (a : AvatarInput) (L : List AvatarInput) (s : AvatarState)
    (hs : s.fKeyProcessed = false)
    (ha : a.keyF = true ∧ a.cameraModeFree = false)
    (hL : ∀ i ∈ L, i.keyF = true ∧ i.cameraModeFree = false) :
    (avatarRun M probe s (a :: L)).isFlying = !s.isFlying ∧
    (avatarRun M probe s (a :: L)).fKeyProcessed = true := by
  have hstep := avatarStep_toggle M probe s a ha.2 ha.1 hs
  have hrest := avatarRun_held M probe L hL (avatarStep M probe s a) hstep.2
  unfold avatarRun at hrest ⊢
  rw [List.foldl_cons]
  exact ⟨hrest.1.trans hstep.1, hrest.2⟩

theorem walkRun_succ (n : Nat) :
    walkRun (n + 1) = avatarStep stdOracle flatProbe (walkRun n) fwdFrame := by
  unfold walkRun avatarRun
  rw [List.replicate_succ', List.foldl_append, List.foldl_cons, List.foldl_nil]

theorem probeMinHeight_flat (x y z : ℚ) (h : 0 < y + 20) :
    probeMinHeight flatProbe x y z = 1 := by
  unfold probeMinHeight flatProbe highestHit
  rw [if_pos h]
  norm_num [AVATAR_HEIGHT, GROUND_HEIGHT]

/-- Invariant of the C4 walk-forward run: the avatar stays grounded
between heights 1 and 2, never flying, with nonpositive vertical
velocity. -/
theorem walkRun_bounds (n : Nat) :
    (walkRun n).isFlying = false ∧ (walkRun n).velY ≤ 0 ∧
    1 ≤ (walkRun n).posY ∧ (walkRun n).posY ≤ 2 := by
  induction n with
  | zero => refine ⟨rfl, le_refl 0, ?_, ?_⟩ <;> norm_num [walkRun, avatarRun, avatarStart]
  | succ n ih =>
      obtain ⟨hF, hv, h1, h2⟩ := ih
      rw [walkRun_succ]
      have hmin : probeMinHeight flatProbe (walkRun n).posX (walkRun n).posY (walkRun n).posZ = 1 :=
        probeMinHeight_flat _ _ _ (by linarith)
      have hstep := avatarStep_not_free stdOracle flatProbe (walkRun n) fwdFrame rfl
      rw [hstep, hmin]
      have hvel : (avatarStepRaw stdOracle 1 (walkRun n) fwdFrame).velY =
          (walkRun n).velY + GRAVITY * (1/60) :=
        avatarStepRaw_velY_walking stdOracle 1 (walkRun n) fwdFrame rfl hF
      have hpos : (avatarStepRaw stdOracle 1 (walkRun n) fwdFrame).posY =
          (walkRun n).posY + (avatarStepRaw stdOracle 1 (walkRun n) fwdFrame).velY * (1/60) :=
        avatarStepRaw_posY stdOracle 1 (walkRun n) fwdFrame
      rw [hvel] at hpos
      refine ⟨?_, ?_, ?_, ?_⟩
      · rw [clampToGround_isFlying, avatarStepRaw_isFlying]; simp [fwdFrame, hF]
      · rw [clampToGround_velY, hvel]
        split
        · split
          · exact le_refl 0
          · rw [GRAVITY] at *; linarith
        · rw [GRAVITY]; linarith
      · rw [clampToGround_posY]
        split
        · exact le_refl 1
        · linarith [not_lt.mp (by assumption)]
      · rw [clampToGround_posY]
        split
        · linarith
        · rw [hpos, GRAVITY]; nlinarith [hv, h2]

/-- The first frame of the walk-forward run already sinks below y = 2. -/
theorem walkRun_one : (walkRun 1).posY = 2 - 49/18000 := by
  norm_num [walkRun, avatarRun, avatarStep, avatarStepRaw, clampToGround,
    probeMinHeight, highestHit, stdOracle, flatProbe, fwdFrame, avatarStart,
    WALK_SPEED, FLY_SPEED, GRAVITY, ROTATION_SPEED, AVATAR_HEIGHT,
    GROUND_HEIGHT, List.replicate, List.foldl]

set_option maxHeartbeats 4000000 in
/-- Evaluation of the full 60-frame walk-forward run. -/
theorem walkRun_final :
    (walkRun 60).posX = 0 ∧ (walkRun 60).posY = 1 ∧ (walkRun 60).posZ = -8 := by
  norm_num [walkRun, avatarRun, avatarStep, avatarStepRaw, clampToGround,
    probeMinHeight, highestHit, stdOracle, flatProbe, fwdFrame, avatarStart,
    WALK_SPEED, FLY_SPEED, GRAVITY, ROTATION_SPEED, AVATAR_HEIGHT,
    GROUND_HEIGHT, List.replicate, List.foldl]

/-! ### Claim theorems about the avatar controller -/

/-- Claim C1: after every per-frame avatar locomotion update, for every
movement input and every math and probe oracle, the avatar's position.y
is at least the probed ground height plus the half-height of 1.0 m
(together: `probeMinHeight`); when the integrated (pre-clamp) position
falls below this minimum it is clamped to the minimum and any downward
vertical velocity is zeroed. -/
theorem avatar_min_height_invariant (M : MathOracle) (probe : GroundProbe)
    (s : AvatarState) (i : AvatarInput) (hfree : i.cameraModeFree = false) :
    probeMinHeight probe s.posX s.posY s.posZ ≤ (avatarStep M probe s i).posY ∧
    ((avatarStepRaw M (probeMinHeight probe s.posX s.posY s.posZ) s i).posY <
        probeMinHeight probe s.posX s.posY s.posZ →
      (avatarStep M probe s i).posY = probeMinHeight probe s.posX s.posY s.posZ ∧
      ((avatarStepRaw M (probeMinHeight probe s.posX s.posY s.posZ) s i).velY < 0 →
        (avatarStep M probe s i).velY = 0)) := by
  refine ⟨avatarStep_posY_ge M probe s i hfree, fun hlt => ?_⟩
  rw [avatarStep_not_free M probe s i hfree, clampToGround_posY, clampToGround_velY,
    if_pos hlt, if_pos hlt]
  exact ⟨rfl, fun hneg => by rw [if_pos hneg]⟩

/-- Witness for C1 at a concrete frame: the initial state walking forward
over flat ground. -/
theorem avatar_min_height_invariant_witness :
    fwdFrame.cameraModeFree = false ∧
    probeMinHeight flatProbe avatarStart.posX avatarStart.posY avatarStart.posZ ≤
      (avatarStep stdOracle flatProbe avatarStart fwdFrame).posY :=
  ⟨rfl, (avatar_min_height_invariant stdOracle flatProbe avatarStart fwdFrame rfl).1⟩

/-- Claim C4 counterexample: walking forward for 1 s of nominal frames
from (0,2,0) over flat ground at y = 0, position.y does not stay clamped
at 2: it is already below 2 after the first frame and ends at 1, not 2
(off by a full metre, hence not approximately (0,2,-8)). -/
theorem walk_forward_counterexample :
    (walkRun 1).posY < 2 ∧ (walkRun 60).posY = 1 ∧ (walkRun 60).posY ≠ 2 := by
  refine ⟨?_, walkRun_final.2.1, ?_⟩
  · rw [walkRun_one]; norm_num
  · rw [walkRun_final.2.1]; norm_num

/-- Claim C4 amended: walking forward for 1 s of nominal delta-time
frames from (0,2,0) over flat ground at y = 0 moves the avatar to exactly
(0, 1, -8) (8 m/s along -Z at yaw 0), and position.y stays between
groundHeight + halfHeight = 1 and the initial 2 throughout, settling at
1, the clamp minimum. -/
theorem walk_forward_one_second :
    (walkRun 60).posX = 0 ∧ (walkRun 60).posY = 1 ∧ (walkRun 60).posZ = -8 ∧
    ∀ n : Nat, 1 ≤ (walkRun n).posY ∧ (walkRun n).posY ≤ 2 :=
  ⟨walkRun_final.1, walkRun_final.2.1, walkRun_final.2.2,
    fun n => ⟨(walkRun_bounds n).2.2.1, (walkRun_bounds n).2.2.2⟩⟩

/-- Claim C5 counterexample: the frame update does not probe at the new
(post-move) horizontal position.  Over a terrain whose height differs
between the start position and the position one forward frame later, the
update from the source disagrees with the spec-worded variant that probes
at the new position. -/
theorem probe_position_counterexample :
    (avatarStep stdOracle ridgeProbe avatarStart fwdFrame).posY ≠
      (avatarStepSpecProbe stdOracle ridgeProbe avatarStart fwdFrame).posY := by
  have h1 : (avatarStep stdOracle ridgeProbe avatarStart fwdFrame).posY = 2 - 49/18000 := by
    norm_num [avatarStep, avatarStepRaw, clampToGround, probeMinHeight, highestHit,
      stdOracle, ridgeProbe, fwdFrame, avatarStart, WALK_SPEED, FLY_SPEED, GRAVITY,
      ROTATION_SPEED, AVATAR_HEIGHT, GROUND_HEIGHT]
  have h2 : (avatarStepSpecProbe stdOracle ridgeProbe avatarStart fwdFrame).posY = 11 := by
    norm_num [avatarStepSpecProbe, avatarStepRaw, clampToGround, probeMinHeight, highestHit,
      stdOracle, ridgeProbe, fwdFrame, avatarStart, WALK_SPEED, FLY_SPEED, GRAVITY,
      ROTATION_SPEED, AVATAR_HEIGHT, GROUND_HEIGHT]
  rw [h1, h2]; norm_num

/-- Claim C5 amended: in each locomotion frame the ground probe is cast
at the pre-move position (ray origin 20 m above the position at the start
of the frame) with half-height 1.0 m, and the post-integration clamp uses
that probe's minimum: the update reads the probe only through its value
at the pre-move ray origin, and the resulting position.y is at least that
probe's minimum height. -/
theorem probe_at_premove_position (M : MathOracle) (g g' : GroundProbe)
    (s : AvatarState) (i : AvatarInput) (hfree : i.cameraModeFree = false)
    (hagree : g s.posX (s.posY + 20) s.posZ = g' s.posX (s.posY + 20) s.posZ) :
    avatarStep M g s i = avatarStep M g' s i ∧
    probeMinHeight g s.posX s.posY s.posZ ≤ (avatarStep M g s i).posY := by
  have hmin : probeMinHeight g s.posX s.posY s.posZ =
      probeMinHeight g' s.posX s.posY s.posZ := by
    unfold probeMinHeight; rw [hagree]
  refine ⟨?_, avatarStep_posY_ge M g s i hfree⟩
  rw [avatarStep_not_free M g s i hfree, avatarStep_not_free M g' s i hfree, hmin]

/-- Witness for the amended C5: the flat probe and the ridge probe agree
at the initial pre-move ray origin, so the frame results coincide. -/
theorem probe_at_premove_position_witness :
    flatProbe avatarStart.posX (avatarStart.posY + 20) avatarStart.posZ =
      ridgeProbe avatarStart.posX (avatarStart.posY + 20) avatarStart.posZ ∧
    avatarStep stdOracle flatProbe avatarStart fwdFrame =
      avatarStep stdOracle ridgeProbe avatarStart fwdFrame := by
  have hag : flatProbe avatarStart.posX (avatarStart.posY + 20) avatarStart.posZ =
      ridgeProbe avatarStart.posX (avatarStart.posY + 20) avatarStart.posZ := by
    norm_num [flatProbe, ridgeProbe, avatarStart]
  exact ⟨hag,
    (probe_at_premove_position stdOracle flatProbe ridgeProbe avatarStart fwdFrame rfl hag).1⟩

/-- Claim C6: the fly toggle is edge-triggered.  For a run of frames with
the toggle key continuously held (starting with the latch clear), every
nonempty prefix of the run shows `isFlying` flipped exactly once relative
to the start; a released frame keeps `isFlying` and re-arms the latch;
and a second held run flips it exactly once more, back to the original
value. -/
theorem fly_toggle_edge (M : MathOracle) (probe : GroundProbe) (s : AvatarState)
    (a : AvatarInput) (L1 : List AvatarInput) (r : AvatarInput)
    (b : AvatarInput) (L2 : List AvatarInput)
    (hs : s.fKeyProcessed = false)
    (ha : a.keyF = true ∧ a.cameraModeFree = false)
    (h1 : ∀ i ∈ L1, i.keyF = true ∧ i.cameraModeFree = false)
    (hr : r.keyF = false) (hrfree : r.cameraModeFree = false)
    (hb : b.keyF = true ∧ b.cameraModeFree = false)
    (h2 : ∀ i ∈ L2, i.keyF = true ∧ i.cameraModeFree = false) :
    (∀ n : Nat, (avatarRun M probe s ((a :: L1).take (n + 1))).isFlying = !s.isFlying) ∧
    (avatarStep M probe (avatarRun M probe s (a :: L1)) r).isFlying =
      (avatarRun M probe s (a :: L1)).isFlying ∧
    (∀ n : Nat,
      (avatarRun M probe (avatarStep M probe (avatarRun M probe s (a :: L1)) r)
        ((b :: L2).take (n + 1))).isFlying = s.isFlying) := by
  have hrun1 := avatarRun_held_from_clear M probe a L1 s hs ha h1
  have hstepr := avatarStep_release M probe (avatarRun M probe s (a :: L1)) r hrfree hr
  refine ⟨?_, hstepr.1, ?_⟩
  · intro n
    rw [List.take_succ_cons]
    exact (avatarRun_held_from_clear M probe a (L1.take n) s hs ha
      (fun i hi => h1 i (List.take_subset n L1 hi))).1
  · intro n
    rw [List.take_succ_cons]
    have hflip := (avatarRun_held_from_clear M probe b (L2.take n)
      (avatarStep M probe (avatarRun M probe s (a :: L1)) r) hstepr.2 hb
      (fun i hi => h2 i (List.take_subset n L2 hi))).1
    rw [hflip, hstepr.1, hrun1.1, Bool.not_not]

/-- Witness for C6: two single-frame held runs separated by one released
frame, starting from the initial state. -/
theorem fly_toggle_edge_witness :
    avatarStart.fKeyProcessed = false ∧
    (avatarRun stdOracle flatProbe avatarStart ([fFrame].take 1)).isFlying =
      !avatarStart.isFlying ∧
    (avatarRun stdOracle flatProbe
      (avatarStep stdOracle flatProbe (avatarRun stdOracle flatProbe avatarStart [fFrame])
        idleFrame) ([fFrame].take 1)).isFlying = avatarStart.isFlying := by
  have h := fly_toggle_edge stdOracle flatProbe avatarStart fFrame [] idleFrame fFrame []
    rfl ⟨rfl, rfl⟩ (by simp) rfl rfl ⟨rfl, rfl⟩ (by simp)
  exact ⟨rfl, h.1 0, h.2.2 0⟩

/-- Claim C10: while the camera is in free-fly mode the avatar frame
update returns immediately, so the entire avatar state (position,
rotation, isFlying, isWalking, velocity and the toggle latch) is
unchanged, on a single frame and over every run of such frames. -/
theorem avatar_free_mode_noop (M : MathOracle) (probe : GroundProbe)
    (s : AvatarState) (i : AvatarInput) (hfree : i.cameraModeFree = true) :
    avatarStep M probe s i = s ∧
    ∀ L : List AvatarInput, (∀ j ∈ L, j.cameraModeFree = true) →
      avatarRun M probe s L = s := by
  constructor
  · unfold avatarStep; rw [if_pos (by simp [hfree])]
  · intro L
    induction L with
    | nil => intro _; rfl
    | cons c L ih =>
        intro hL
        have hc : avatarStep M probe s c = s := by
          unfold avatarStep
          rw [if_pos (by simp [hL c (List.mem_cons_self c L)])]
        have hcons : avatarRun M probe s (c :: L) =
            avatarRun M probe (avatarStep M probe s c) L := rfl
        rw [hcons, hc]
        exact ih (fun j hj => hL j (List.mem_cons_of_mem c hj))

/-- Witness for C10 at a concrete free-camera frame. -/
theorem avatar_free_mode_noop_witness :
    freeFrame.cameraModeFree = true ∧
    avatarStep stdOracle flatProbe avatarStart freeFrame = avatarStart :=
  ⟨rfl, (avatar_free_mode_noop stdOracle flatProbe avatarStart freeFrame rfl).1⟩

/-! ### Claim theorems about the texture LOD hysteresis -/

/-- Claim C2 counterexample: starting from Medium (1), the distance
sequence [200, 110, 200, ...] does not change tier only at 110.  The
first 200 keeps Medium and 110 switches to High (0), but the second 200
switches back to Medium, because leaving High needs only distance > 140. -/
theorem lod_sequence_counterexample :
    lodRun 1 [200] = 1 ∧ lodRun 1 [200, 110] = 0 ∧
    lodRun 1 [200, 110, 200] = 1 ∧ (1 : ℤ) ≠ 0 := by
  refine ⟨by decide, by decide, by decide, by decide⟩

/-- Claim C2 amended: the tier-transition function follows the hysteresis
thresholds exactly as stated (High to Medium iff distance > 140; Medium
to High iff distance < 120, Medium to Low iff distance > 280; Low to
Medium iff distance < 250; otherwise keep).  For a tile starting at
Medium, [200, 110, 200, 130] keeps Medium at the first 200, switches to
High at 110, switches back to Medium at the second 200 (200 > 140), and
keeps Medium at 130. -/
theorem lod_hysteresis_rules :
    (∀ d : ℚ, getTextureLOD d 0 = if 140 < d then 1 else 0) ∧
    (∀ d : ℚ, getTextureLOD d 1 = if d < 120 then 0 else if 280 < d then 2 else 1) ∧
    (∀ d : ℚ, getTextureLOD d 2 = if d < 250 then 1 else 2) ∧
    lodRun 1 [200] = 1 ∧ lodRun 1 [200, 110] = 0 ∧
    lodRun 1 [200, 110, 200] = 1 ∧ lodRun 1 [200, 110, 200, 130] = 1 := by
  refine ⟨fun d => ?_, fun d => ?_, fun d => ?_, by decide, by decide, by decide, by decide⟩
  · norm_num [getTextureLOD, HIGH_RES_DISTANCE_HYSTERESIS]
  · norm_num [getTextureLOD, HIGH_RES_DISTANCE, MEDIUM_RES_DISTANCE_HYSTERESIS]
  · norm_num [getTextureLOD, MEDIUM_RES_DISTANCE]

/-! ### Claim theorems about the orbit camera pitch -/

/-- Normal form of the MAX_PITCH constant without the decimal divisor. -/
theorem MAX_PITCH_eq : MAX_PITCH = 2 * Real.pi / 5 := by
  unfold MAX_PITCH
  rw [show (2.5 : ℝ) = 5 / 2 from by norm_num, div_div_eq_mul_div]
  ring

/-- The rotate-drag pitch update always lands in [MIN_PITCH, MAX_PITCH],
whatever the input magnitude. -/
theorem orbitPitchDrag_mem (q dY : ℝ) :
    MIN_PITCH ≤ orbitPitchDrag q dY ∧ orbitPitchDrag q dY ≤ MAX_PITCH := by
  unfold orbitPitchDrag
  refine ⟨le_max_left _ _, max_le ?_ (min_le_left _ _)⟩
  rw [MAX_PITCH_eq]
  unfold MIN_PITCH
  linarith [Real.pi_pos]

/-- The ground-clamp back-solve never lowers the pitch and never raises
it past pi/2 (the range of the inverse sine). -/
theorem orbitPitchGroundSolve_bounds (tY aY d q : ℝ)
    (hq1 : MIN_PITCH ≤ q) (hq2 : q ≤ Real.pi / 2) :
    MIN_PITCH ≤ orbitPitchGroundSolve tY aY d q ∧
    orbitPitchGroundSolve tY aY d q ≤ Real.pi / 2 := by
  simp only [orbitPitchGroundSolve]
  split
  · constructor
    · exact hq1.trans (le_of_lt (by assumption))
    · exact Real.arcsin_le_pi_div_two _
  · exact ⟨hq1, hq2⟩

/-- Pitch bound preserved along any sequence of adjustments. -/
theorem runPitch_bounds (es : List PitchEvent) :
    ∀ p : ℝ, MIN_PITCH ≤ p → p ≤ Real.pi / 2 →
      MIN_PITCH ≤ runPitch p es ∧ runPitch p es ≤ Real.pi / 2 := by
  induction es with
  | nil => intro p h1 h2; exact ⟨h1, h2⟩
  | cons e es ih =>
      intro p h1 h2
      have hstep : MIN_PITCH ≤ applyPitchEvent p e ∧
          applyPitchEvent p e ≤ Real.pi / 2 := by
        cases e with
        | drag dY =>
            have h := orbitPitchDrag_mem p dY
            refine ⟨h.1, h.2.trans ?_⟩
            rw [MAX_PITCH_eq]
            linarith [Real.pi_pos]
        | groundSolve tY aY d => exact orbitPitchGroundSolve_bounds tY aY d p h1 h2
      have hcons : runPitch p (e :: es) = runPitch (applyPitchEvent p e) es := rfl
      rw [hcons]
      exact ih _ hstep.1 hstep.2

/-- Claim C3 counterexample: starting from the initial orbit pitch pi/6,
a single ground-clamp back-solve with clamped target height 8, avatar
height 0 and distance 5 (ratio 1.3, clamped to 1, arcsine pi/2) raises
the pitch to pi/2, strictly above MAX_PITCH = pi/2.5, so the pitch does
not always lie in [-pi/3, pi/2.5]. -/
theorem pitch_range_counterexample :
    MAX_PITCH < runPitch (Real.pi / 6) [PitchEvent.groundSolve 8 0 5] := by
  have harcsin : Real.arcsin (max (-1) (min 1 (((8 : ℝ) - 0 - 1.5) / 5))) = Real.pi / 2 := by
    have h13 : ((8 : ℝ) - 0 - 1.5) / 5 = 1.3 := by norm_num
    rw [h13, min_eq_left (by norm_num), max_eq_right (by norm_num)]
    exact Real.arcsin_one
  have hres : runPitch (Real.pi / 6) [PitchEvent.groundSolve 8 0 5] = Real.pi / 2 := by
    have hrun : runPitch (Real.pi / 6) [PitchEvent.groundSolve 8 0 5] =
        orbitPitchGroundSolve 8 0 5 (Real.pi / 6) := rfl
    rw [hrun]
    simp only [orbitPitchGroundSolve]
    rw [harcsin, if_pos (by linarith [Real.pi_pos])]
  rw [hres, MAX_PITCH_eq]
  linarith [Real.pi_pos]

/-- Claim C3 amended: sequences of pitch adjustments keep the orbit pitch
in [-pi/3, pi/2] (not [-pi/3, pi/2.5]): drag adjustments alone always
land in [-pi/3, pi/2.5], but the ground-clamp back-solve can raise the
pitch up to pi/2, the upper end of the inverse sine's range, and never
lowers it below the drag minimum. -/
theorem pitch_bounds (p : ℝ) (es : List PitchEvent)
    (h1 : MIN_PITCH ≤ p) (h2 : p ≤ Real.pi / 2) :
    MIN_PITCH ≤ runPitch p es ∧ runPitch p es ≤ Real.pi / 2 ∧
    ∀ q dY : ℝ, MIN_PITCH ≤ orbitPitchDrag q dY ∧ orbitPitchDrag q dY ≤ MAX_PITCH :=
  ⟨(runPitch_bounds es p h1 h2).1, (runPitch_bounds es p h1 h2).2,
    fun q dY => orbitPitchDrag_mem q dY⟩

/-- Witness for the amended C3 at the initial pitch pi/6 and a violent
100-pixel drag. -/
theorem pitch_bounds_witness :
    MIN_PITCH ≤ Real.pi / 6 ∧ Real.pi / 6 ≤ Real.pi / 2 ∧
    MIN_PITCH ≤ runPitch (Real.pi / 6) [PitchEvent.drag 100] ∧
    runPitch (Real.pi / 6) [PitchEvent.drag 100] ≤ Real.pi / 2 := by
  have h1 : MIN_PITCH ≤ Real.pi / 6 := by
    unfold MIN_PITCH; linarith [Real.pi_pos]
  have h2 : Real.pi / 6 ≤ Real.pi / 2 := by linarith [Real.pi_pos]
  have h := pitch_bounds (Real.pi / 6) [PitchEvent.drag 100] h1 h2
  exact ⟨h1, h2, h.1, h.2.1⟩

/-! ### Claim theorems about the gizmo drag mapping and prim scaling -/

/-- Claim C7: the gizmo drag-to-delta mapping is the pure function
pixelDelta x distance x 0.002 of the camera distance and the pixel delta,
with the horizontal screen delta on the x axis and the inverted vertical
delta on the y and z axes; a Translate drag of 100 px horizontal at
distance 10 m always produces the world-space x offset 2, whatever the
vertical component. -/
theorem gizmo_drag_mapping :
    (∀ dX dY dist : ℚ,
      gizmoAxisDelta Axis.x dX dY dist = dX * (dist * 0.002) ∧
      gizmoAxisDelta Axis.y dX dY dist = -dY * (dist * 0.002) ∧
      gizmoAxisDelta Axis.z dX dY dist = -dY * (dist * 0.002)) ∧
    ∀ dY : ℚ, gizmoEmit GizmoMode.translate Axis.x 100 dY 10 = 2 := by
  refine ⟨fun dX dY dist => ⟨rfl, rfl, rfl⟩, fun dY => ?_⟩
  norm_num [gizmoEmit, gizmoAxisDelta]

/-- Claim C8: for every scale-mode gizmo delta, however negative,
applying the scale update leaves every axis scale at least 0.1 (the
dragged axis is clamped at 0.1, the others keep their value). -/
theorem scale_min_clamp (prim : PrimTransform) (axis : Axis) (delta : ℚ)
    (hx : 0.1 ≤ prim.scale_x) (hy : 0.1 ≤ prim.scale_y) (hz : 0.1 ≤ prim.scale_z) :
    0.1 ≤ (handlePrimScale prim axis delta).scale_x ∧
    0.1 ≤ (handlePrimScale prim axis delta).scale_y ∧
    0.1 ≤ (handlePrimScale prim axis delta).scale_z := by
  cases axis
  · exact ⟨le_max_left _ _, hy, hz⟩
  · exact ⟨hx, le_max_left _ _, hz⟩
  · exact ⟨hx, hy, le_max_left _ _⟩

/-- Witness for C8: a unit-scale prim dragged by -1000000 on the x axis. -/
theorem scale_min_clamp_witness :
    ((0.1 : ℚ) ≤ primUnit.scale_x ∧ (0.1 : ℚ) ≤ primUnit.scale_y ∧
      (0.1 : ℚ) ≤ primUnit.scale_z) ∧
    (0.1 ≤ (handlePrimScale primUnit Axis.x (-1000000)).scale_x ∧
      0.1 ≤ (handlePrimScale primUnit Axis.x (-1000000)).scale_y ∧
      0.1 ≤ (handlePrimScale primUnit Axis.x (-1000000)).scale_z) := by
  have hx : (0.1 : ℚ) ≤ primUnit.scale_x := by norm_num [primUnit]
  have hy : (0.1 : ℚ) ≤ primUnit.scale_y := by norm_num [primUnit]
  have hz : (0.1 : ℚ) ≤ primUnit.scale_z := by norm_num [primUnit]
  exact ⟨⟨hx, hy, hz⟩, scale_min_clamp primUnit Axis.x (-1000000) hx hy hz⟩

/-! ### Claim theorem about exclusive input ownership -/

/-- Claim C9: while a gizmo drag session is live the exclusive-input
flags are set (pointer-down raises both, moves preserve them), and while
they are set the camera rig's mouse-down and mouse-move recognizers leave
the whole camera gesture state untouched.  On session end the mouse-up
keeps `__gizmoClicked` raised and schedules the clear 100 ms later: any
timer tick before that moment leaves the exclusive flag set, and the
scheduled tick clears it. -/
theorem exclusive_input_suppression (flags : InputFlags) (eDown : MouseDownEvent)
    (eMove : MouseMoveEvent) (s : CamState) (g : GizmoCtl) (axis : Axis)
    (px py now t : ℚ)
    (hex : exclusiveInput flags = true) (hg : g.flags.gizmoClicked = true) :
    camHandleMouseDown flags eDown s = s ∧
    camHandleMouseMove flags eMove s = s ∧
    exclusiveInput (gizmoPointerDown axis px py g).flags = true ∧
    (∀ mode dist a b, ((gizmoDragMove mode dist a b g).1).flags = g.flags) ∧
    exclusiveInput (gizmoMouseUp now g).flags = true ∧
    (gizmoMouseUp now g).pendingClearAt = some (now + 100) ∧
    (t < now + 100 → exclusiveInput (gizmoTimerFire t (gizmoMouseUp now g)).flags = true) ∧
    exclusiveInput (gizmoTimerFire (now + 100) (gizmoMouseUp now g)).flags = false := by
  refine ⟨?_, ?_, rfl, ?_, ?_, rfl, ?_, ?_⟩
  · simp [camHandleMouseDown, hex]
  · simp [camHandleMouseMove, hex]
  · intro mode dist a b
    cases h : g.draggingAxis <;> simp [gizmoDragMove, h]
  · simp [gizmoMouseUp, exclusiveInput, hg]
  · intro ht
    simp [gizmoTimerFire, gizmoMouseUp, exclusiveInput, hg, not_le.mpr ht]
  · simp [gizmoTimerFire, gizmoMouseUp, exclusiveInput]

/-- Witness for C9 with both flags raised during a live x-axis session,
a mouse-up at 1000 ms and a timer tick at 1050 ms. -/
theorem exclusive_input_suppression_witness :
    exclusiveInput flagsBoth = true ∧ gizmoSession0.flags.gizmoClicked = true ∧
    camHandleMouseDown flagsBoth mouseDownEvent0 camState0 = camState0 ∧
    camHandleMouseMove flagsBoth mouseMoveEvent0 camState0 = camState0 ∧
    exclusiveInput (gizmoTimerFire 1050 (gizmoMouseUp 1000 gizmoSession0)).flags = true ∧
    exclusiveInput (gizmoTimerFire (1000 + 100) (gizmoMouseUp 1000 gizmoSession0)).flags = false := by
  have h := exclusive_input_suppression flagsBoth mouseDownEvent0 mouseMoveEvent0
    camState0 gizmoSession0 Axis.x 0 0 1000 1050 rfl rfl
  exact ⟨rfl, rfl, h.1, h.2.1, h.2.2.2.2.2.2.1 (by norm_num), h.2.2.2.2.2.2.2⟩

end Vibers
